import Mathlib

/-!
# Verification of the HOS trip planner and ELD schedule expander

Shallow embedding of the two core components of the spotter backend:

* `RouteService.generate_hos_compliant_plan` (src/trips/route_service.py,
  lines 196-289), the day planner;
* `ELDLogGenerator.generate_daily_logs` and its helpers
  (src/trips/eld_log_generator.py), the schedule expander.

Python floats are modelled as rationals (`ℚ`), `math.floor`/`math.ceil`
as `Int.floor`/`Int.ceil`, and Python's `int()` truncation as
`ratTrunc`.  `datetime` values are modelled by the minute count since
the log day's midnight (a rational, since fractional driving segments
produce fractional minutes; `strftime('%H:%M')` truncation is modelled
by `storedTime`).  Fixed display strings and note strings are modelled
by enumerations that record exactly which branch of the source produced
them.
-/

namespace Spotter

/-- Python `int()` applied to a rational: truncation toward zero. -/
def ratTrunc (q : ℚ) : ℤ := if 0 ≤ q then ⌊q⌋ else ⌈q⌉

/-! ## Day planner (`route_service.py`)

`generate_hos_compliant_plan(route_info, current_cycle_used)` reads
`route_info['distance_miles']` and `route_info['duration_hours']`
(bound to the local `driving_hours`) and returns a dict.  Each entry of
`daily_plans` is one `daily_plan` dict built inside the `while` loop.
-/

/-- One entry of `daily_plans` as built in the loop body of
`generate_hos_compliant_plan` (route_service.py lines 237-273).
`includes_pickup` and `includes_dropoff` record the two `if` branches
(lines 264-267) that add the pickup hour (`current_day == 1`) and the
dropoff hour (`remaining_distance - distance_today <= 0`) into
`total_on_duty`. -/
structure DailyPlan where
  day : ℕ
  driving_hours : ℚ
  distance_miles : ℚ
  fuel_stops : ℤ
  mandatory_breaks : ℤ
  total_on_duty : ℚ
  pickup_dropoff_time : ℚ
  includes_pickup : Bool
  includes_dropoff : Bool
deriving DecidableEq, Repr

/-- The loop body of `generate_hos_compliant_plan` for one day
(route_service.py lines 239-267): given the remaining distance and
remaining driving hours, build the day's plan entry. -/
def mkDailyPlan (distance_miles driving_hours : ℚ) (current_day : ℕ)
    (remaining_distance remaining_driving : ℚ) : DailyPlan :=
  let max_driving_today := min 11 remaining_driving
  let avg_speed := if driving_hours > 0 then distance_miles / driving_hours else 55
  let distance_today := max_driving_today * avg_speed
  let fuel_stops_today : ℤ :=
    if distance_today ≥ 1000 then ⌊distance_today / 1000⌋ else 0
  let breaks_today : ℤ := ⌊max_driving_today / 8⌋
  let includes_pickup := current_day = 1
  let includes_dropoff := remaining_distance - distance_today ≤ 0
  { day := current_day
    driving_hours := max_driving_today
    distance_miles := distance_today
    fuel_stops := fuel_stops_today
    mandatory_breaks := breaks_today
    total_on_duty := max_driving_today + (fuel_stops_today : ℚ) * (1/2)
      + (if includes_pickup then 1 else 0)
      + (if includes_dropoff then 1 else 0)
    pickup_dropoff_time := if current_day = 1 then 2 else 0
    includes_pickup := includes_pickup
    includes_dropoff := includes_dropoff }

/-- The `while remaining_distance > 0 and current_day <= days_needed`
loop of `generate_hos_compliant_plan` (lines 237-273).  The `fuel`
argument counts the days still allowed by the `current_day <=
days_needed` conjunct, so the recursion is structural; the caller
passes `days_needed.toNat` with `current_day = 1`. -/
def planLoop (distance_miles driving_hours : ℚ) :
    ℕ → ℕ → ℚ → ℚ → List DailyPlan
  | 0, _, _, _ => []
  | fuel + 1, current_day, remaining_distance, remaining_driving =>
    if remaining_distance > 0 then
      let p := mkDailyPlan distance_miles driving_hours current_day
        remaining_distance remaining_driving
      p :: planLoop distance_miles driving_hours fuel (current_day + 1)
        (remaining_distance - p.distance_miles)
        (remaining_driving - p.driving_hours)
    else []

/-- The dict returned by `generate_hos_compliant_plan` (lines 275-289).
`mandatory_breaks` is the local `mandatory_breaks` of line 222 (returned
via `summary.mandatory_break_time`). -/
structure HosPlan where
  total_distance : ℚ
  total_driving_hours : ℚ
  total_days_needed : ℤ
  total_fuel_stops : ℤ
  mandatory_breaks : ℤ
  remaining_cycle_hours : ℚ
  cycle_compliant : Bool
  daily_plans : List DailyPlan
  total_on_duty_time : ℚ
  mandatory_break_time : ℚ
  fuel_stop_time : ℚ
deriving DecidableEq, Repr

/-- `RouteService.generate_hos_compliant_plan` (route_service.py lines
196-289).  The source performs no input validation and has no raise
statement: it is a total function of the three numeric inputs. -/
def generate_hos_compliant_plan (distance_miles driving_hours current_cycle_used : ℚ) :
    HosPlan :=
  let remaining_cycle_hours : ℚ := 70 - current_cycle_used
  let fuel_stops : ℤ := ⌈distance_miles / 1000⌉ - 1
  let fuel_stop_time : ℚ := (fuel_stops : ℚ) * (1/2)
  let pickup_dropoff_time : ℚ := 2
  let total_on_duty_needed : ℚ := driving_hours + fuel_stop_time + pickup_dropoff_time
  let mandatory_breaks : ℤ := ⌊driving_hours / 8⌋
  let mandatory_break_time : ℚ := (mandatory_breaks : ℚ) * (1/2)
  let total_time_with_breaks : ℚ := total_on_duty_needed + mandatory_break_time
  let days_needed : ℤ := ⌈total_time_with_breaks / 14⌉
  { total_distance := distance_miles
    total_driving_hours := driving_hours
    total_days_needed := days_needed
    total_fuel_stops := fuel_stops
    mandatory_breaks := mandatory_breaks
    remaining_cycle_hours := remaining_cycle_hours
    cycle_compliant := decide (total_time_with_breaks ≤ remaining_cycle_hours)
    daily_plans := planLoop distance_miles driving_hours days_needed.toNat 1
      distance_miles driving_hours
    total_on_duty_time := total_on_duty_needed
    mandatory_break_time := mandatory_break_time
    fuel_stop_time := fuel_stop_time }

/-- Sum of the `driving_hours` entries of a daily-plan list. -/
def sumDriving (l : List DailyPlan) : ℚ := (l.map DailyPlan.driving_hours).sum

/-- Sum of the `distance_miles` entries of a daily-plan list. -/
def sumDistance (l : List DailyPlan) : ℚ := (l.map DailyPlan.distance_miles).sum

/-! ## Schedule expander (`eld_log_generator.py`)

`ELDLogGenerator.generate_daily_logs` iterates over
`hos_plan['daily_plans']` and builds one log record per day via
`_generate_duty_status_changes`, `_calculate_daily_totals`,
`_check_hos_compliance` and `_check_violations`.
-/

/-- The four duty-status codes of `ELDLogGenerator.DUTY_STATUS`. -/
inductive DutyStatus where
  | off_duty
  | sleeper_berth
  | driving
  | on_duty_not_driving
deriving DecidableEq, Repr

/-- The location strings the expander attaches to events.  `current`,
`pickup` and `dropoff` stand for the three formatted location strings
passed into `_generate_duty_status_changes`; the remaining constructors
record which branch of `_interpolate_location` (lines 331-343) or which
literal (`'Rest Area'`, the `'Fuel Stop - …'` prefix) produced the
string. -/
inductive Location where
  | current
  | pickup
  | dropoff
  | restArea
  | enRouteFrom (start : Location)
  | highwayPct (pct : ℤ)
  | approaching (stop : Location)
  | fuelStop (inner : Location)
deriving DecidableEq, Repr

/-- `_interpolate_location(distance_covered, total_distance, start_loc,
end_loc)` (eld_log_generator.py lines 331-343). -/
def interpolate_location (distance_covered total_distance : ℚ)
    (start_loc end_loc : Location) : Location :=
  if total_distance = 0 then start_loc
  else
    let progress := distance_covered / total_distance
    if progress < 3/10 then .enRouteFrom start_loc
    else if progress < 7/10 then .highwayPct (ratTrunc (progress * 100))
    else .approaching end_loc

/-- The `notes` string of each emitted event, one constructor per
literal in the source. -/
inductive EventNote where
  | endRest
  | preTrip
  | pickupArrival
  | pickupDone
  | beginDriving
  | fueling
  | resumeDriving
  | mandatoryBreak
  | dropoffArrival
  | dropoffDone
  | postTrip
  | beginOffPeriod
deriving DecidableEq, Repr

/-- One duty-status change record.  `time` is the simulated wall clock
in minutes since the log day's midnight; it may pass 1440 (the source
keeps a `datetime` and only wraps when formatting with
`strftime('%H:%M')`, see `storedTime`). -/
structure DutyEvent where
  status : DutyStatus
  time : ℚ
  location : Location
  odometer : ℚ
  note : EventNote
deriving DecidableEq, Repr

/-- The wall-clock string `strftime('%H:%M')` of an event time, as the
minute count it parses back to in `_calculate_daily_totals`: whole
minutes, wrapped modulo 24 hours. -/
def storedTime (t : ℚ) : ℕ := (⌊t⌋ % 1440).toNat

/-- The `daily_plan` dict as the expander reads it: `driving_hours`,
`distance_miles`, `fuel_stops` (`.get(…, 0)`), `mandatory_breaks`
(`.get(…, 0)`) and the optional `is_final_day` key (`.get(…, False)`).
A planner-produced dict has exactly the seven keys of
route_service.py lines 253-261 and no `is_final_day` key, so its
`len()` is 7; `dictLen` accounts for an explicitly added
`is_final_day` key. -/
structure AllotmentDict where
  driving_hours : ℚ
  distance_miles : ℚ
  fuel_stops : ℤ
  mandatory_breaks : ℤ
  is_final_day : Option Bool := none
deriving DecidableEq, Repr

/-- `len(daily_plan)`: the number of keys of the day dict built by the
planner (7: `day`, `driving_hours`, `distance_miles`, `fuel_stops`,
`mandatory_breaks`, `total_on_duty`, `pickup_dropoff_time`), plus one
if an `is_final_day` key was added. -/
def dictLen (a : AllotmentDict) : ℕ := 7 + (if a.is_final_day.isSome then 1 else 0)

/-- `_calculate_odometer(day_idx, daily_plans, base_odometer)`
(eld_log_generator.py lines 345-351): base plus the truncated sum of
the previous days' distances. -/
def calculate_odometer (day_idx : ℕ) (daily_plans : List AllotmentDict)
    (base_odometer : ℤ) : ℤ :=
  base_odometer + ratTrunc ((daily_plans.take day_idx).map
    AllotmentDict.distance_miles).sum

/-- One iteration of the `while remaining_driving > 0` loop of
`_generate_duty_status_changes` (lines 140-193), fuel-indexed.  Every
event-odometer call in that loop is `_calculate_odometer(day_idx, [],
250000)`, i.e. the base 250000 — the source passes the empty list.
Returns the emitted events, the final simulated time and the final
`remaining_driving`; `drivingLoopFuel` fuel always suffices
(`drivingLoop_fuel_le_zero`). -/
def drivingLoop (a : AllotmentDict) :
    ℕ → ℚ → ℚ → ℚ → List DutyEvent × ℚ × ℚ
  | 0, t, _, rem => ([], t, rem)
  | fuel + 1, t, distance_covered, rem =>
    if rem > 0 then
      let seg := min 8 rem
      let startEv : DutyEvent :=
        { status := .driving, time := t
          location := interpolate_location distance_covered a.distance_miles
            .pickup .dropoff
          odometer := 250000 + distance_covered
          note := .beginDriving }
      let segment_distance := seg / a.driving_hours * a.distance_miles
      let fuelEvs : List DutyEvent :=
        if a.fuel_stops > 0 ∧ segment_distance > 500 then
          let fuel_time := t + seg * 30
          let fuel_distance := distance_covered + segment_distance / 2
          let floc := Location.fuelStop (interpolate_location fuel_distance
            a.distance_miles .pickup .dropoff)
          [ { status := .on_duty_not_driving, time := fuel_time, location := floc
              odometer := 250000 + fuel_distance, note := .fueling },
            { status := .driving, time := fuel_time + 30, location := floc
              odometer := 250000 + fuel_distance, note := .resumeDriving } ]
        else []
      let t' := t + seg * 60
      let distance_covered' := distance_covered + segment_distance
      let rem' := rem - seg
      let breakEvs : List DutyEvent :=
        if rem' > 0 ∧ seg ≥ 8 then
          [ { status := .off_duty, time := t', location := .restArea
              odometer := 250000 + distance_covered', note := .mandatoryBreak } ]
        else []
      let t'' := if rem' > 0 ∧ seg ≥ 8 then t' + 30 else t'
      let rest := drivingLoop a fuel t'' distance_covered' rem'
      (startEv :: fuelEvs ++ breakEvs ++ rest.1, rest.2)
    else ([], t, rem)

/-- Fuel bound for `drivingLoop`: the Python loop runs `⌈rem/8⌉` times. -/
def drivingLoopFuel (a : AllotmentDict) : ℕ := (⌈a.driving_hours / 8⌉).toNat

/-- Events emitted before the driving loop (eld_log_generator.py lines
90-132): the day-opening `off_duty` event for days after the first,
the pre-trip inspection, and on day one the pickup arrival and
completion events. -/
def openEvents (day_idx : ℕ) : List DutyEvent :=
  let openLoc : Location := if day_idx = 0 then .current else .restArea
  (if day_idx > 0 then
    [ { status := .off_duty, time := 360, location := openLoc
        odometer := 250000, note := .endRest } ]
  else []) ++
  [ { status := .on_duty_not_driving, time := 375, location := openLoc
      odometer := 250000, note := .preTrip } ] ++
  (if day_idx = 0 then
    [ { status := .on_duty_not_driving, time := 420, location := .pickup
        odometer := 250000 + 50, note := .pickupArrival },
      { status := .on_duty_not_driving, time := 480, location := .pickup
        odometer := 250000 + 50, note := .pickupDone } ]
  else [])

/-- The simulated clock value when the driving loop starts: 06:00 plus
15 minutes of pre-trip inspection, plus 45+60 minutes of pickup
activity on day one. -/
def startTime (day_idx : ℕ) : ℚ := if day_idx = 0 then 480 else 375

/-- Events emitted after the driving loop, starting from simulated time
`tLoop` (eld_log_generator.py lines 195-233): the dropoff arrival and
completion pair when `day_idx == len(daily_plan) - 1` (the key count of
the day dict, see `dictLen`) or the dict carries `is_final_day = True`,
then the post-trip inspection and the closing `off_duty` event. -/
def tailEvents (a : AllotmentDict) (day_idx : ℕ) (tLoop : ℚ) : List DutyEvent :=
  let isDrop : Bool := day_idx = dictLen a - 1 ∨ a.is_final_day.getD false
  let dropEvs : List DutyEvent :=
    if isDrop then
      [ { status := .on_duty_not_driving, time := tLoop, location := .dropoff
          odometer := 250000 + a.distance_miles, note := .dropoffArrival },
        { status := .on_duty_not_driving, time := tLoop + 60, location := .dropoff
          odometer := 250000 + a.distance_miles, note := .dropoffDone } ]
    else []
  let tDrop := if isDrop then tLoop + 60 else tLoop
  let closeLoc : Location := if day_idx = dictLen a - 1 then .dropoff else .restArea
  dropEvs ++
  [ { status := .on_duty_not_driving, time := tDrop + 15, location := closeLoc
      odometer := 250000 + a.distance_miles, note := .postTrip },
    { status := .off_duty, time := tDrop + 30, location := closeLoc
      odometer := 250000 + a.distance_miles, note := .beginOffPeriod } ]

/-- `_generate_duty_status_changes(daily_plan, day_idx, current_loc,
pickup_loc, dropoff_loc, log_date)` (eld_log_generator.py lines
85-235).  The simulated clock starts at 6 AM (minute 360).  Note that
the dropoff condition of line 196 and the post-trip location condition
of line 220 compare `day_idx` against `len(daily_plan) - 1`, the key
count of the *day dict*, not the number of trip days. -/
def generate_duty_status_changes (a : AllotmentDict) (day_idx : ℕ) :
    List DutyEvent :=
  openEvents day_idx ++
    (drivingLoop a (drivingLoopFuel a) (startTime day_idx) 0 a.driving_hours).1 ++
    tailEvents a day_idx
      (drivingLoop a (drivingLoopFuel a) (startTime day_idx) 0 a.driving_hours).2.1

/-- The per-status hour totals dict of `_calculate_daily_totals`. -/
structure Totals where
  driving : ℚ
  on_duty_not_driving : ℚ
  sleeper_berth : ℚ
  off_duty : ℚ
deriving DecidableEq, Repr

/-- The all-zero totals dict. -/
def Totals.zero : Totals := ⟨0, 0, 0, 0⟩

/-- Add `d` hours to the bucket of status `s` (the
`totals[status] += duration` line; every status is a dict key). -/
def Totals.add (tot : Totals) (s : DutyStatus) (d : ℚ) : Totals :=
  match s with
  | .driving => { tot with driving := tot.driving + d }
  | .on_duty_not_driving =>
    { tot with on_duty_not_driving := tot.on_duty_not_driving + d }
  | .sleeper_berth => { tot with sleeper_berth := tot.sleeper_berth + d }
  | .off_duty => { tot with off_duty := tot.off_duty + d }

/-- Duration in hours between two stored `'%H:%M'` times, rolling the
second past midnight when it is numerically earlier
(`_calculate_daily_totals`, lines 252-259). -/
def pairDuration (cur nxt : ℕ) : ℚ :=
  (((if (nxt : ℤ) < cur then (nxt : ℤ) + 1440 else (nxt : ℤ)) - cur : ℤ) : ℚ) / 60

/-- `_calculate_daily_totals(duty_status_changes)` (lines 237-265):
for each adjacent pair of events, the time difference is accumulated
into the bucket of the first event's status. -/
def calculate_daily_totals : List DutyEvent → Totals
  | [] => Totals.zero
  | [_] => Totals.zero
  | e :: e' :: rest =>
    (calculate_daily_totals (e' :: rest)).add e.status
      (pairDuration (storedTime e.time) (storedTime e'.time))

/-- `_check_hos_compliance(totals)` (lines 267-270). -/
def check_hos_compliance (tot : Totals) : Bool :=
  decide (tot.driving ≤ 11 ∧ tot.driving + tot.on_duty_not_driving ≤ 14)

/-- One violation message of `_check_violations`; the first two carry
the formatted total and the cap cited in the message text. -/
inductive Violation where
  | exceededDailyDriving (total cap : ℚ)
  | exceededDailyOnDuty (total cap : ℚ)
  | droveWithoutBreak
deriving DecidableEq, Repr

/-- The consecutive-driving scan of `_check_violations` (lines
283-293): count consecutive `driving` entries, reset on `off_duty` or
`sleeper_berth`, and report once if the count ever exceeds 16. -/
def consecutiveDrivingScan : List DutyEvent → ℕ → List Violation
  | [], _ => []
  | e :: rest, k =>
    let k' := if e.status = .driving then k + 1
      else if e.status = .off_duty ∨ e.status = .sleeper_berth then 0 else k
    if k' > 16 then [.droveWithoutBreak] else consecutiveDrivingScan rest k'

/-- `_check_violations(totals, changes)` (lines 272-295). -/
def check_violations (tot : Totals) (changes : List DutyEvent) : List Violation :=
  (if tot.driving > 11 then [.exceededDailyDriving tot.driving 11] else []) ++
  (if tot.driving + tot.on_duty_not_driving > 14 then
    [.exceededDailyOnDuty (tot.driving + tot.on_duty_not_driving) 14] else []) ++
  consecutiveDrivingScan changes 0

/-- One `daily_log` dict of `generate_daily_logs` (lines 59-79); the
constant driver/vehicle strings and the rendering grid are omitted.
`date` is a day number (start date plus day index). -/
structure DailyLog where
  date : ℕ
  day_of_trip : ℕ
  duty_status_changes : List DutyEvent
  total_drive_time : ℚ
  total_on_duty_time : ℚ
  total_sleeper_berth_time : ℚ
  total_off_duty_time : ℚ
  distance_traveled : ℚ
  fuel_stops : ℤ
  mandatory_breaks : ℤ
  odometer_start : ℤ
  odometer_end : ℤ
  hos_compliant : Bool
  violations : List Violation
deriving DecidableEq, Repr

/-- The body of the `for day_idx, daily_plan in enumerate(daily_plans)`
loop of `generate_daily_logs` (lines 42-81). -/
def mkDailyLog (daily_plans : List AllotmentDict) (start : ℕ) (day_idx : ℕ)
    (a : AllotmentDict) : DailyLog :=
  let changes := generate_duty_status_changes a day_idx
  let tot := calculate_daily_totals changes
  { date := start + day_idx
    day_of_trip := day_idx + 1
    duty_status_changes := changes
    total_drive_time := tot.driving
    total_on_duty_time := tot.on_duty_not_driving + tot.driving
    total_sleeper_berth_time := tot.sleeper_berth
    total_off_duty_time := tot.off_duty
    distance_traveled := a.distance_miles
    fuel_stops := a.fuel_stops
    mandatory_breaks := a.mandatory_breaks
    odometer_start := calculate_odometer day_idx daily_plans 250000
    odometer_end := calculate_odometer (day_idx + 1) daily_plans 250000
    hos_compliant := check_hos_compliance tot
    violations := check_violations tot changes }

/-- `ELDLogGenerator.generate_daily_logs(trip_plan, start_date)`
(eld_log_generator.py lines 24-83).  Dates are modelled as day
numbers.  `now` models the internally sampled `datetime.now()` that the
source substitutes when `start_date` is `None` (lines 27-28). -/
def generate_daily_logs (daily_plans : List AllotmentDict) (now : ℕ)
    (start_date : Option ℕ) : List DailyLog :=
  let start := start_date.getD now
  daily_plans.enum.map fun p => mkDailyLog daily_plans start p.1 p.2

/-- `timeBook t l u`: the event times of `l` are non-decreasing, lie
between `t` and `u`, and `t ≤ u` — phrased as one chain so that
consecutive emission phases compose. -/
def timeBook (t : ℚ) (l : List DutyEvent) (u : ℚ) : Prop :=
  List.Chain' (fun x y => x ≤ y) (t :: (l.map DutyEvent.time ++ [u]))

/-! ## Helper lemmas -/

/-- Ceiling as negated floor, for evaluating `math.ceil` calls. -/
theorem ratCeil_eq_neg_floor (a : ℚ) : ⌈a⌉ = -⌊-a⌋ := by
  rw [Int.floor_neg, neg_neg]

theorem sumDriving_nil : sumDriving [] = 0 := rfl

theorem sumDistance_nil : sumDistance [] = 0 := rfl

theorem sumDriving_cons (p : DailyPlan) (l : List DailyPlan) :
    sumDriving (p :: l) = p.driving_hours + sumDriving l := by
  simp [sumDriving]

theorem sumDistance_cons (p : DailyPlan) (l : List DailyPlan) :
    sumDistance (p :: l) = p.distance_miles + sumDistance l := by
  simp [sumDistance]

/-- With no remaining distance the planner loop emits nothing (the
`remaining_distance > 0` conjunct fails immediately). -/
theorem planLoop_of_nonpos (D T : ℚ) (fuel day : ℕ) (rd r : ℚ) (h : rd ≤ 0) :
    planLoop D T fuel day rd r = [] := by
  cases fuel with
  | zero => rfl
  | succ n => rw [planLoop, if_neg (not_lt.2 h)]

/-- Loop invariant for the planner's day loop: starting from remaining
driving `r` and the proportionally consistent remaining distance
`r * (D / T)`, and with at least `⌈r/11⌉` days of budget left, the
emitted days' driving hours sum to `r` and their distances to
`r * (D / T)`. -/
theorem planLoop_sums (D T : ℚ) (hD : 0 < D) (hT : 0 < T) :
    ∀ (fuel day : ℕ) (r : ℚ), 0 ≤ r → r ≤ 11 * (fuel : ℚ) →
      sumDriving (planLoop D T fuel day (r * (D / T)) r) = r ∧
      sumDistance (planLoop D T fuel day (r * (D / T)) r) = r * (D / T) := by
  intro fuel
  induction fuel with
  | zero =>
    intro day r h0 h11
    have hr : r = 0 := le_antisymm (by simpa using h11) h0
    subst hr
    simp [planLoop, sumDriving, sumDistance]
  | succ fuel ih =>
    intro day r h0 h11
    rcases eq_or_lt_of_le h0 with h | hr
    · rw [← h]
      simp [planLoop, sumDriving, sumDistance]
    · have hDT : 0 < D / T := div_pos hD hT
      have hpos : 0 < r * (D / T) := mul_pos hr hDT
      have hmr : min 11 r ≤ r := min_le_right _ _
      have h0' : 0 ≤ r - min 11 r := sub_nonneg.2 hmr
      have h11' : r - min 11 r ≤ 11 * (fuel : ℚ) := by
        rcases le_total 11 r with hle | hle
        · rw [min_eq_left hle]
          push_cast at h11 ⊢
          linarith
        · rw [min_eq_right hle]
          have : (0 : ℚ) ≤ 11 * (fuel : ℚ) := by positivity
          linarith
      have hrec := ih (day + 1) (r - min 11 r) h0' h11'
      have harg : r * (D / T) - min 11 r * (D / T) = (r - min 11 r) * (D / T) := by
        ring
      rw [planLoop, if_pos hpos]
      simp only [mkDailyPlan, hT, gt_iff_lt, if_pos]
      rw [sumDriving_cons, sumDistance_cons]
      simp only [harg]
      rw [hrec.1, hrec.2]
      constructor <;> ring

/-- Every day the planner loop constructs has `driving_hours =
min(11, remaining) ≤ 11`, for arbitrary loop state. -/
theorem planLoop_driving_le (D T : ℚ) :
    ∀ (fuel day : ℕ) (rd r : ℚ),
      ((planLoop D T fuel day rd r).all fun p => decide (p.driving_hours ≤ 11)) = true := by
  intro fuel
  induction fuel with
  | zero => intro day rd r; rfl
  | succ fuel ih =>
    intro day rd r
    by_cases h : rd > 0
    · rw [planLoop, if_pos h]
      simp only [List.all_cons, Bool.and_eq_true, decide_eq_true_eq]
      exact ⟨min_le_left _ _, ih _ _ _⟩
    · rw [planLoop, if_neg h]; rfl

theorem timeBook_nil {t u : ℚ} (h : t ≤ u) : timeBook t [] u := by
  simp [timeBook, h]

theorem timeBook_cons {t u : ℚ} {e : DutyEvent} {l : List DutyEvent}
    (h : t ≤ e.time) (hb : timeBook e.time l u) : timeBook t (e :: l) u := by
  unfold timeBook at hb ⊢
  simp only [List.map_cons, List.cons_append]
  exact (List.chain'_cons.2 ⟨h, hb⟩)

theorem timeBook_le {t u : ℚ} {l : List DutyEvent} (hb : timeBook t l u) : t ≤ u := by
  induction l generalizing t with
  | nil => simpa [timeBook] using hb
  | cons e l ih =>
    unfold timeBook at hb
    simp only [List.map_cons, List.cons_append, List.chain'_cons] at hb
    exact le_trans hb.1 (ih hb.2)

theorem timeBook_glue {t u v : ℚ} {A B : List DutyEvent}
    (h1 : timeBook t A u) (h2 : timeBook u B v) : timeBook t (A ++ B) v := by
  induction A generalizing t with
  | nil =>
    have htu : t ≤ u := timeBook_le h1
    induction B generalizing t u with
    | nil =>
      have huv : u ≤ v := timeBook_le h2
      exact timeBook_nil (le_trans htu huv)
    | cons e B _ =>
      unfold timeBook at h2
      simp only [List.map_cons, List.cons_append, List.chain'_cons] at h2
      exact timeBook_cons (le_trans htu h2.1) h2.2
  | cons e A ih =>
    unfold timeBook at h1
    simp only [List.map_cons, List.cons_append, List.chain'_cons] at h1
    exact timeBook_cons h1.1 (ih h1.2)

theorem timeBook_chain' {t u : ℚ} {l : List DutyEvent} (hb : timeBook t l u) :
    List.Chain' (fun x y => x ≤ y) (l.map DutyEvent.time) := by
  unfold timeBook at hb
  have h1 := List.chain'_cons'.1 hb
  have h2 := (List.chain'_append.1 h1.2).1
  exact h2

/-- With no remaining driving the expander's driving loop emits no
events and leaves the state unchanged. -/
theorem drivingLoop_of_nonpos (a : AllotmentDict) (fuel : ℕ) (t dc rem : ℚ)
    (h : rem ≤ 0) : drivingLoop a fuel t dc rem = ([], t, rem) := by
  cases fuel with
  | zero => rfl
  | succ n => rw [drivingLoop, if_neg (not_lt.2 h)]

/-- Each driving-loop iteration consumes `min 8 rem` of the remaining
driving, so `⌈rem/8⌉`-many iterations drain it: whenever
`rem ≤ 8 * fuel`, extra fuel does not change the result. -/
theorem drivingLoop_add_fuel (a : AllotmentDict) (extra : ℕ) :
    ∀ (fuel : ℕ) (t dc rem : ℚ), rem ≤ 8 * (fuel : ℚ) →
      drivingLoop a (fuel + extra) t dc rem = drivingLoop a fuel t dc rem := by
  intro fuel
  induction fuel with
  | zero =>
    intro t dc rem h
    simp only [Nat.cast_zero, mul_zero] at h
    rw [drivingLoop_of_nonpos a (0 + extra) t dc rem h,
      drivingLoop_of_nonpos a 0 t dc rem h]
  | succ fuel ih =>
    intro t dc rem h
    by_cases hrem : rem > 0
    · have hstep : rem - min 8 rem ≤ 8 * (fuel : ℚ) := by
        rcases le_total rem 8 with hle | hle
        · rw [min_eq_right hle]
          have : (0 : ℚ) ≤ 8 * (fuel : ℚ) := by positivity
          linarith
        · rw [min_eq_left hle]
          push_cast at h
          linarith
      have heq : fuel + 1 + extra = (fuel + extra) + 1 := by omega
      rw [heq]
      rw [drivingLoop, drivingLoop, if_pos hrem, if_pos hrem]
      simp only [ih _ _ _ hstep]
    · rw [drivingLoop_of_nonpos a (fuel + 1 + extra) t dc rem (not_lt.1 hrem),
        drivingLoop_of_nonpos a (fuel + 1) t dc rem (not_lt.1 hrem)]

/-- With `rem ≤ 8 * fuel` the loop's final `remaining_driving` is
non-positive: the Python `while` condition eventually fails. -/
theorem drivingLoop_rem_nonpos (a : AllotmentDict) :
    ∀ (fuel : ℕ) (t dc rem : ℚ), rem ≤ 8 * (fuel : ℚ) →
      (drivingLoop a fuel t dc rem).2.2 ≤ 0 := by
  intro fuel
  induction fuel with
  | zero =>
    intro t dc rem h
    simpa [drivingLoop] using by simpa using h
  | succ fuel ih =>
    intro t dc rem h
    by_cases hrem : rem > 0
    · have hstep : rem - min 8 rem ≤ 8 * (fuel : ℚ) := by
        rcases le_total rem 8 with hle | hle
        · rw [min_eq_right hle]
          have : (0 : ℚ) ≤ 8 * (fuel : ℚ) := by positivity
          linarith
        · rw [min_eq_left hle]
          push_cast at h
          linarith
      rw [drivingLoop, if_pos hrem]
      simpa using ih _ _ _ hstep
    · rw [drivingLoop_of_nonpos a (fuel + 1) t dc rem (not_lt.1 hrem)]
      exact not_lt.1 hrem

theorem timeBook_mono_left {t t' u : ℚ} {l : List DutyEvent} (h : t ≤ t')
    (hb : timeBook t' l u) : timeBook t l u := by
  have := timeBook_glue (timeBook_nil h) hb
  simpa using this

/-- When the day has no fuel stops, the driving loop emits its events
with non-decreasing times, all between the entry time and the exit
time. -/
theorem drivingLoop_timeBook (a : AllotmentDict) (hf : a.fuel_stops ≤ 0) :
    ∀ (fuel : ℕ) (t dc rem : ℚ),
      timeBook t (drivingLoop a fuel t dc rem).1 (drivingLoop a fuel t dc rem).2.1 := by
  intro fuel
  induction fuel with
  | zero => intro t dc rem; exact timeBook_nil le_rfl
  | succ fuel ih =>
    intro t dc rem
    by_cases hrem : rem > 0
    · have hseg : 0 < min 8 rem := lt_min (by norm_num) hrem
      have hfc : ¬ ((0:ℤ) < a.fuel_stops ∧
          (500:ℚ) < min 8 rem / a.driving_hours * a.distance_miles) :=
        fun hc => absurd hc.1 (not_lt.2 hf)
      rw [drivingLoop, if_pos hrem]
      by_cases hbr : rem - min 8 rem > 0 ∧ min 8 rem ≥ 8
      · simp only [gt_iff_lt, hfc, if_false, if_neg hfc, if_pos hbr, List.nil_append,
          List.cons_append, List.singleton_append]
        refine timeBook_cons le_rfl ?_
        refine timeBook_cons (by linarith) ?_
        exact timeBook_mono_left (by linarith) (ih _ _ _)
      · simp only [gt_iff_lt, hfc, if_false, if_neg hfc, if_neg hbr, List.nil_append,
          List.cons_append, List.singleton_append]
        refine timeBook_cons le_rfl ?_
        exact timeBook_mono_left (by linarith) (ih _ _ _)
    · rw [drivingLoop_of_nonpos a (fuel + 1) t dc rem (not_lt.1 hrem)]
      exact timeBook_nil le_rfl

/-- The opening events of a day run from 06:00 to the loop entry time
with non-decreasing times. -/
theorem openEvents_timeBook (d : ℕ) : timeBook 360 (openEvents d) (startTime d) := by
  by_cases hd : d = 0
  · subst hd
    simp only [openEvents, startTime, if_pos rfl, gt_iff_lt, lt_irrefl, if_false,
      List.nil_append, List.cons_append, List.singleton_append, if_true]
    refine timeBook_cons (by norm_num) ?_
    refine timeBook_cons (by norm_num) ?_
    refine timeBook_cons (by norm_num) ?_
    exact timeBook_nil (by norm_num)
  · have hpos : d > 0 := Nat.pos_of_ne_zero hd
    simp only [openEvents, startTime, if_neg hd, if_pos hpos, List.cons_append,
      List.singleton_append, List.append_nil]
    refine timeBook_cons (by norm_num) ?_
    refine timeBook_cons (by norm_num) ?_
    exact timeBook_nil (by norm_num)

/-- The dropoff/post-trip/rest events run from the loop exit time to 90
minutes later with non-decreasing times. -/
theorem tailEvents_timeBook (a : AllotmentDict) (d : ℕ) (tL : ℚ) :
    timeBook tL (tailEvents a d tL) (tL + 90) := by
  unfold tailEvents
  by_cases hdrop : (d = dictLen a - 1 ∨ a.is_final_day.getD false)
  · simp only [hdrop, if_true, decide_eq_true_eq, List.cons_append,
      List.singleton_append, List.nil_append]
    refine timeBook_cons (by norm_num) ?_
    refine timeBook_cons (by norm_num) ?_
    refine timeBook_cons (by norm_num) ?_
    refine timeBook_cons (by norm_num) ?_
    exact timeBook_nil (by norm_num [add_assoc])
  · simp only [hdrop, if_false, decide_eq_true_eq, List.cons_append,
      List.singleton_append, List.nil_append]
    refine timeBook_cons (by norm_num) ?_
    refine timeBook_cons (by norm_num) ?_
    exact timeBook_nil (by norm_num)

/-- The fuel bound `⌈driving/8⌉` satisfies the draining hypothesis. -/
theorem driving_le_eight_mul_fuel (a : AllotmentDict) :
    a.driving_hours ≤ 8 * ((drivingLoopFuel a : ℕ) : ℚ) := by
  unfold drivingLoopFuel
  rcases le_or_lt a.driving_hours 0 with h | h
  · have : (0 : ℚ) ≤ 8 * (((⌈a.driving_hours / 8⌉).toNat : ℕ) : ℚ) := by positivity
    linarith
  · have hnn : 0 ≤ ⌈a.driving_hours / 8⌉ := Int.ceil_nonneg (by positivity)
    have hcast : (((⌈a.driving_hours / 8⌉).toNat : ℕ) : ℚ) = ((⌈a.driving_hours / 8⌉ : ℤ) : ℚ) := by
      exact_mod_cast congrArg (fun z : ℤ => (z : ℚ)) (Int.toNat_of_nonneg hnn)
    rw [hcast]
    have hceil : a.driving_hours / 8 ≤ (⌈a.driving_hours / 8⌉ : ℚ) := Int.le_ceil _
    linarith

/-- The last event of every expanded day is the closing `off_duty`
rest event. -/
theorem dutyChanges_getLast (a : AllotmentDict) (d : ℕ) :
    ((generate_duty_status_changes a d).getLast?.map DutyEvent.status)
      = some DutyStatus.off_duty := by
  unfold generate_duty_status_changes tailEvents
  simp [List.getLast?_append]

/-- With non-positive `driving_hours` the driving loop is skipped and
no `driving`-status event appears anywhere in the day. -/
theorem dutyChanges_no_driving (a : AllotmentDict) (d : ℕ) (h : a.driving_hours ≤ 0) :
    ((generate_duty_status_changes a d).all
      fun e => decide (e.status ≠ DutyStatus.driving)) = true := by
  unfold generate_duty_status_changes
  rw [drivingLoop_of_nonpos a (drivingLoopFuel a) (startTime d) 0 a.driving_hours h]
  unfold openEvents tailEvents
  by_cases hd : d = 0 <;> by_cases hdrop : (d = dictLen a - 1 ∨ a.is_final_day.getD false) <;>
    simp [hd, hdrop, List.all_append] <;> rintro x h1 (rfl | rfl) <;> simp

/-! ## Claims -/

/-- C1 (counterexample).  The claim: for every valid planner input the
daily distances sum to the input distance within 1e-3 miles.  False at
the valid input `distance_miles = 500`, `duration_hours = 11.5`,
`cycle_used_hours = 0`: there `days_needed = ⌈14/14⌉ = 1`, so the day
loop stops after one 11-hour day covering only `11000/23 ≈ 478.26`
miles, more than 1e-3 short of 500. -/
theorem C1_counterexample :
    ¬ ((500 : ℚ) - 1/1000 ≤ sumDistance (generate_hos_compliant_plan 500 (23/2) 0).daily_plans
      ∧ sumDistance (generate_hos_compliant_plan 500 (23/2) 0).daily_plans ≤ 500 + 1/1000) := by
  norm_num [generate_hos_compliant_plan, planLoop, mkDailyPlan, ratCeil_eq_neg_floor,
    min_def, sumDistance]

/-- C1 (amended).  For positive distance and duration, whenever
`duration_hours ≤ 11 · days_needed` (the `current_day <= days_needed`
bound never truncates the trip), the daily driving hours sum exactly to
the input duration and the daily distances exactly to the input
distance. -/
theorem C1_amended (D T c : ℚ) (hD : 0 < D) (hT : 0 < T)
    (hdays : T ≤ 11 * (((generate_hos_compliant_plan D T c).total_days_needed).toNat : ℚ)) :
    sumDriving (generate_hos_compliant_plan D T c).daily_plans = T ∧
    sumDistance (generate_hos_compliant_plan D T c).daily_plans = D := by
  have hTD : T * (D / T) = D := by field_simp
  have h := planLoop_sums D T hD hT
    ((generate_hos_compliant_plan D T c).total_days_needed).toNat 1 T (le_of_lt hT) hdays
  rw [hTD] at h
  exact h

/-- C1 (witness).  `C1_amended` applied at distance 500, duration 9,
cycle 0, where `days_needed = 1` and `9 ≤ 11`. -/
theorem C1_witness : (0:ℚ) < 500 ∧ (0:ℚ) < 9 ∧
    (9:ℚ) ≤ 11 * (((generate_hos_compliant_plan 500 9 0).total_days_needed).toNat : ℚ) ∧
    sumDriving (generate_hos_compliant_plan 500 9 0).daily_plans = 9 ∧
    sumDistance (generate_hos_compliant_plan 500 9 0).daily_plans = 500 := by
  have hd : (9:ℚ) ≤ 11 * (((generate_hos_compliant_plan 500 9 0).total_days_needed).toNat : ℚ) := by
    norm_num [generate_hos_compliant_plan, ratCeil_eq_neg_floor]
  refine ⟨by norm_num, by norm_num, hd, ?_, ?_⟩
  · exact (C1_amended 500 9 0 (by norm_num) (by norm_num) hd).1
  · exact (C1_amended 500 9 0 (by norm_num) (by norm_num) hd).2

/-- C2 (counterexample).  The claim: every constructed entry satisfies
`driving_hours ≤ 11` and `total_on_duty_hours ≤ 14` unless the input is
already invalid.  False at the valid input `distance_miles = 23000`,
`duration_hours = 1`, `cycle_used_hours = 0` (non-negative, consistent
pair): the single day gets 23 prorated fuel stops, so
`total_on_duty = 1 + 23·0.5 + 1 + 1 = 14.5 > 14`. -/
theorem C2_counterexample :
    ¬ (((generate_hos_compliant_plan 23000 1 0).daily_plans.all
      fun p => decide (p.driving_hours ≤ 11 ∧ p.total_on_duty ≤ 14)) = true) := by
  norm_num [generate_hos_compliant_plan, planLoop, mkDailyPlan, ratCeil_eq_neg_floor, min_def]

/-- C2 (amended).  Every constructed entry satisfies
`driving_hours = min(11, remaining) ≤ 11`, for all inputs; the
14-hour bound on `total_on_duty` does not hold in general (fuel stops
prorated from a high distance/duration ratio can push it past 14, and
the value is stored unclamped). -/
theorem C2_amended : ∀ D T c : ℚ,
    ((generate_hos_compliant_plan D T c).daily_plans.all
      fun p => decide (p.driving_hours ≤ 11)) = true :=
  fun D T _ => planLoop_driving_le D T _ 1 D T

/-- C3 (counterexample).  The claim: the planner raises `InvalidInput`
for negative inputs or for `duration_hours > 0` with
`distance_miles == 0`, and returns no normal plan.  The source performs
no validation and contains no raise statement (the embedding is a total
function); at the inconsistent pair `(0, 5, 0)` it returns an ordinary
result with computed fields and an empty day list. -/
theorem C3_counterexample :
    (generate_hos_compliant_plan 0 5 0).daily_plans = [] ∧
    (generate_hos_compliant_plan 0 5 0).total_days_needed = 1 ∧
    (generate_hos_compliant_plan 0 5 0).cycle_compliant = true := by
  norm_num [generate_hos_compliant_plan, planLoop, mkDailyPlan, ratCeil_eq_neg_floor, min_def]

/-- C3 (amended).  The planner never signals an error: it is a total
function of its inputs; in particular for any non-positive distance —
including the inconsistent pair `distance = 0, duration > 0` — it
returns a normal plan whose `daily_plans` list is empty, because the
loop guard `remaining_distance > 0` fails immediately. -/
theorem C3_amended (D T c : ℚ) (hD : D ≤ 0) :
    (generate_hos_compliant_plan D T c).daily_plans = [] :=
  planLoop_of_nonpos D T _ 1 D T hD

/-- C3 (witness).  `C3_amended` at the inconsistent pair `(0, 5, 0)`. -/
theorem C3_witness : (0:ℚ) ≤ 0 ∧ (generate_hos_compliant_plan 0 5 0).daily_plans = [] :=
  ⟨le_refl 0, C3_amended 0 5 0 (le_refl 0)⟩

/-- C4.  Scenario `distance_miles = 500`, `duration_hours = 9`,
`cycle_used_hours = 0`: one day needed, no fuel stops, one mandatory
break, and a single daily plan with 9 driving hours that includes both
the pickup and the dropoff hour. -/
theorem C4_scenario :
    (generate_hos_compliant_plan 500 9 0).total_days_needed = 1 ∧
    (generate_hos_compliant_plan 500 9 0).total_fuel_stops = 0 ∧
    (generate_hos_compliant_plan 500 9 0).mandatory_breaks = 1 ∧
    (generate_hos_compliant_plan 500 9 0).daily_plans.map DailyPlan.driving_hours = [9] ∧
    (generate_hos_compliant_plan 500 9 0).daily_plans.map DailyPlan.includes_pickup = [true] ∧
    (generate_hos_compliant_plan 500 9 0).daily_plans.map DailyPlan.includes_dropoff = [true] := by
  norm_num [generate_hos_compliant_plan, planLoop, mkDailyPlan, ratCeil_eq_neg_floor, min_def]

/-- C5.  An allotment with `driving_hours = 12` (beyond the 11-hour
cap) still expands — the expander re-validates nothing — and the
resulting record reports `hos_compliant = false` with a violation
citing the 11-hour cap (the day's accumulated driving total is
`49/4 = 12.25` hours); in general `_check_hos_compliance` returns
exactly `driving ≤ 11 && driving + on_duty_not_driving ≤ 14` over the
accumulated totals. -/
theorem C5_overlimit_day :
    ((generate_daily_logs [⟨12, 600, 0, 1, none⟩] 0 (some 0)).map DailyLog.hos_compliant
      = [false]) ∧
    ((generate_daily_logs [⟨12, 600, 0, 1, none⟩] 0 (some 0)).map DailyLog.violations
      = [[.exceededDailyDriving (49/4) 11, .exceededDailyOnDuty (57/4) 14]]) ∧
    ∀ t : Totals, check_hos_compliance t
      = (decide (t.driving ≤ 11) && decide (t.driving + t.on_duty_not_driving ≤ 14)) := by
  refine ⟨?_, ?_, ?_⟩
  · norm_num [generate_daily_logs, mkDailyLog, generate_duty_status_changes, openEvents,
      startTime, tailEvents, dictLen, drivingLoop, drivingLoopFuel, calculate_daily_totals,
      storedTime, pairDuration, Totals.add, Totals.zero, check_hos_compliance,
      interpolate_location, ratCeil_eq_neg_floor, min_def, ratTrunc, List.enum,
      List.enumFrom]
  · norm_num [generate_daily_logs, mkDailyLog, generate_duty_status_changes, openEvents,
      startTime, tailEvents, dictLen, drivingLoop, drivingLoopFuel, calculate_daily_totals,
      storedTime, pairDuration, Totals.add, Totals.zero, check_violations,
      consecutiveDrivingScan, interpolate_location, ratCeil_eq_neg_floor, min_def,
      ratTrunc, List.enum, List.enumFrom]
    decide
  · intro t
    by_cases h1 : t.driving ≤ 11 <;>
      by_cases h2 : t.driving + t.on_duty_not_driving ≤ 14 <;>
        simp [check_hos_compliance, h1, h2]

/-- C6 (failing input).  The claim: dropoff arrival and completion
events are inserted on exactly the day that exhausts the distance.  On
a one-day trip (the single allotment exhausts the whole distance and
carries no `is_final_day` key) the expansion contains no dropoff event
at all, because line 196 compares `day_idx` against
`len(daily_plan) - 1 = 6`, the key count of the day dict, instead of
the number of trip days. -/
theorem C6_dropoff_missing_on_final_day :
    ((generate_daily_logs [⟨9, 500, 0, 1, none⟩] 0 (some 0)).map
      (fun l => l.duty_status_changes.all
        fun e => decide (e.note ≠ EventNote.dropoffArrival)
          && decide (e.note ≠ EventNote.dropoffDone))) = [true] := by
  norm_num [generate_daily_logs, mkDailyLog, generate_duty_status_changes, openEvents,
    startTime, tailEvents, dictLen, drivingLoop, drivingLoopFuel, interpolate_location,
    ratCeil_eq_neg_floor, min_def, ratTrunc, List.enum, List.enumFrom]
  decide

/-- C7 (failing input).  The claim: odometer readings are monotone
non-decreasing over the day-concatenated event sequence.  On day one of
a one-day trip the pickup events carry odometer `250050` (`base + 50`)
but the first driving event then carries `250000`, because every
in-loop odometer call is `_calculate_odometer(day_idx, [], 250000)`
with an empty plan list, and the 50-mile pickup leg is forgotten. -/
theorem C7_odometer_decreases :
    ¬ List.Chain' (fun x y => x ≤ y)
      (((generate_daily_logs [⟨9, 500, 0, 1, none⟩] 0 (some 0)).map
        (fun l => l.duty_status_changes.map DutyEvent.odometer)).flatten) := by
  norm_num [generate_daily_logs, mkDailyLog, generate_duty_status_changes, openEvents,
    startTime, tailEvents, dictLen, drivingLoop, drivingLoopFuel, interpolate_location,
    ratCeil_eq_neg_floor, min_def, ratTrunc, List.enum, List.enumFrom, List.Chain']

/-- C8 (counterexample).  The claim: within a day events are emitted in
strictly increasing chronological order.  On day one the
pickup-completion event and the first driving event share the
timestamp 08:00 (the clock is not advanced between them), so the order
is not strict. -/
theorem C8_counterexample :
    ¬ List.Chain' (fun x y => x < y)
      ((generate_duty_status_changes ⟨9, 500, 0, 1, none⟩ 0).map DutyEvent.time) := by
  norm_num [generate_duty_status_changes, openEvents, startTime, tailEvents, dictLen,
    drivingLoop, drivingLoopFuel, interpolate_location, ratCeil_eq_neg_floor, min_def,
    ratTrunc, List.Chain']

/-- C8 (amended).  Within each day the emitted event times are
non-decreasing (equal timestamps occur at zero-duration transitions),
guaranteed for every allotment without fuel stops; a fuel stop fired in
a sub-hour segment can place its resume event after the following
event's time, so the fuel-free hypothesis is needed. -/
theorem C8_amended (a : AllotmentDict) (d : ℕ) (hf : a.fuel_stops ≤ 0) :
    List.Chain' (fun x y => x ≤ y)
      ((generate_duty_status_changes a d).map DutyEvent.time) := by
  unfold generate_duty_status_changes
  rw [List.append_assoc]
  exact timeBook_chain'
    (timeBook_glue (openEvents_timeBook d)
      (timeBook_glue
        (drivingLoop_timeBook a hf (drivingLoopFuel a) (startTime d) 0 a.driving_hours)
        (tailEvents_timeBook a d
          (drivingLoop a (drivingLoopFuel a) (startTime d) 0 a.driving_hours).2.1)))

/-- C8 (witness).  `C8_amended` at the 12-hour, fuel-free allotment on
day one. -/
theorem C8_witness :
    ((⟨12, 600, 0, 1, none⟩ : AllotmentDict).fuel_stops ≤ 0) ∧
    List.Chain' (fun x y => x ≤ y)
      ((generate_duty_status_changes ⟨12, 600, 0, 1, none⟩ 0).map DutyEvent.time) :=
  ⟨by norm_num, C8_amended ⟨12, 600, 0, 1, none⟩ 0 (by norm_num)⟩

/-- C9 (counterexample).  The claim: the expansion depends only on its
explicit parameters, with no internally sampled clock.  When
`start_date` is `None` the source substitutes `datetime.now()` (lines
27-28), modelled by the `now` parameter: two runs with identical
explicit inputs but different ambient clocks differ. -/
theorem C9_counterexample :
    generate_daily_logs [⟨9, 500, 0, 1, none⟩] 0 none
      ≠ generate_daily_logs [⟨9, 500, 0, 1, none⟩] 1 none := by
  norm_num [generate_daily_logs, mkDailyLog]

/-- C9 (amended).  Whenever `start_date` is supplied, the expansion is
a deterministic function of its explicit parameters: the sampled clock
is ignored. -/
theorem C9_amended : ∀ (plans : List AllotmentDict) (d now now' : ℕ),
    generate_daily_logs plans now (some d) = generate_daily_logs plans now' (some d) :=
  fun _ _ _ _ => rfl

/-- C10.  The per-day generation terminates: each loop iteration
consumes `min 8 rem` driving hours, so `⌈driving/8⌉` iterations drain
the remainder — giving the loop any more fuel changes nothing and the
final `remaining_driving` is non-positive; with `driving_hours ≤ 0` the
loop is skipped entirely and the day contains no driving event; and
every day's finite event list ends with the closing `off_duty` rest
event. -/
theorem C10_termination : ∀ (a : AllotmentDict) (d extra : ℕ) (t dc : ℚ),
    ((generate_duty_status_changes a d).getLast?.map DutyEvent.status
      = some DutyStatus.off_duty)
    ∧ (a.driving_hours ≤ 0 →
        ((generate_duty_status_changes a d).all
          fun e => decide (e.status ≠ DutyStatus.driving)) = true)
    ∧ drivingLoop a (drivingLoopFuel a + extra) t dc a.driving_hours
        = drivingLoop a (drivingLoopFuel a) t dc a.driving_hours
    ∧ (drivingLoop a (drivingLoopFuel a) t dc a.driving_hours).2.2 ≤ 0 := by
  intro a d extra t dc
  exact ⟨dutyChanges_getLast a d,
    fun h => dutyChanges_no_driving a d h,
    drivingLoop_add_fuel a extra (drivingLoopFuel a) t dc a.driving_hours
      (driving_le_eight_mul_fuel a),
    drivingLoop_rem_nonpos a (drivingLoopFuel a) t dc a.driving_hours
      (driving_le_eight_mul_fuel a)⟩

/-- C10 (witness).  `C10_termination` at an allotment with
`driving_hours = -1` on day 2, with 5 units of extra fuel. -/
theorem C10_witness :
    ((generate_duty_status_changes ⟨-1, 100, 0, 0, none⟩ 1).getLast?.map DutyEvent.status
      = some DutyStatus.off_duty)
    ∧ ((-1 : ℚ) ≤ 0)
    ∧ (((generate_duty_status_changes ⟨-1, 100, 0, 0, none⟩ 1).all
        fun e => decide (e.status ≠ DutyStatus.driving)) = true)
    ∧ drivingLoop ⟨-1, 100, 0, 0, none⟩ (drivingLoopFuel ⟨-1, 100, 0, 0, none⟩ + 5) 400 0 (-1)
        = drivingLoop ⟨-1, 100, 0, 0, none⟩ (drivingLoopFuel ⟨-1, 100, 0, 0, none⟩) 400 0 (-1)
    ∧ (drivingLoop ⟨-1, 100, 0, 0, none⟩ (drivingLoopFuel ⟨-1, 100, 0, 0, none⟩) 400 0 (-1)).2.2
        ≤ 0 :=
  ⟨(C10_termination ⟨-1, 100, 0, 0, none⟩ 1 5 400 0).1,
    by norm_num,
    (C10_termination ⟨-1, 100, 0, 0, none⟩ 1 5 400 0).2.1 (by norm_num),
    (C10_termination ⟨-1, 100, 0, 0, none⟩ 1 5 400 0).2.2.1,
    (C10_termination ⟨-1, 100, 0, 0, none⟩ 1 5 400 0).2.2.2⟩

end Spotter
